import Mathlib

/-!
Verification of the AbsoluteTouchEx input-transformation shim (atdll.cpp).

This file gives a shallow embedding of the shim's pure core and of its
stateful message-handling layer, and proves or refutes the specification
claims about it.

* Win32 `LONG` values are modelled as `Int`.  The C `/` operator on signed
  integers truncates toward zero; it is modelled by `Int.tdiv`.  The left
  shift `<< 16` in `AT_TouchpadToScreen` can overflow the 32-bit `LONG`;
  signed overflow is undefined behaviour in C, and MSVC (the compiler this
  repository targets) wraps it in two's complement, so the shift is
  modelled as multiplication by 65536 followed by a two's-complement wrap
  to 32 bits (`wrap32`).
* Win32 handles (`HANDLE`, `HWND`, `HRAWINPUT`) are modelled as numbers;
  the distinguished `MAGIC_HANDLE` raw-input handle is `0`, exactly as in
  the source (`#define MAGIC_HANDLE ((HRAWINPUT)0)`).
* OS calls (raw-input retrieval, HID descriptor parsing, `fopen`) are
  modelled by an oracle environment `OsEnv`; C++ exceptions are modelled
  by `Except CppExc` with the state threaded through a throw, so that
  mutations performed before a throw persist, as they do in C++.
-/

/-- Win32 `RECT`, field-for-field. -/
structure RECT where
  left : Int
  top : Int
  right : Int
  bottom : Int
deriving DecidableEq, Repr

/-- Win32 `POINT`, field-for-field. -/
structure POINT where
  x : Int
  y : Int
deriving DecidableEq, Repr

/-- C integer division on `LONG` (truncation toward zero), i.e. `Int.tdiv`. -/
def cdiv (a b : Int) : Int := Int.tdiv a b

/-- Two's-complement wrap of an integer to the 32-bit signed range
`[-2^31, 2^31)` — the value MSVC produces for an overflowing arithmetic
operation on `LONG`. -/
def wrap32 (x : Int) : Int := (x + 2147483648) % 4294967296 - 2147483648

/--
`AT_TouchpadToScreen` (atdll.cpp lines 433-455): converts a touchpad point
to a "screen" point.  Clamps the point into the rectangle, uses the
inclusive width/height `right + 1 - left` / `bottom + 1 - top`, and
computes `(delta << 16) / width` with C semantics on `LONG`: the shift is
multiplication by 65536 wrapped to 32 bits (on MSVC the overflowing shift
wraps in two's complement), and the division truncates toward zero.  The
delta and width subtractions are wrapped likewise; they are exact (no
wrap) whenever the rectangle's inclusive extent fits in a `LONG`, which
is the regime the theorems below restrict to.
-/
def AT_TouchpadToScreen (touchpadRect : RECT) (touchpadPoint : POINT) : POINT :=
  let tpX := max touchpadRect.left (min touchpadRect.right touchpadPoint.x)
  let tpY := max touchpadRect.top (min touchpadRect.bottom touchpadPoint.y)
  let tpDeltaX := wrap32 (tpX - touchpadRect.left)
  let tpDeltaY := wrap32 (tpY - touchpadRect.top)
  let tpWidth := wrap32 (touchpadRect.right + 1 - touchpadRect.left)
  let tpHeight := wrap32 (touchpadRect.bottom + 1 - touchpadRect.top)
  let scDeltaX := cdiv (wrap32 (tpDeltaX * 65536)) tpWidth
  let scDeltaY := cdiv (wrap32 (tpDeltaY * 65536)) tpHeight
  { x := scDeltaX, y := scDeltaY }

/-- On a nonnegative numerator and positive denominator, C truncating
division agrees with mathematical floor division. -/
theorem cdiv_eq_ediv (a b : Int) (ha : 0 ≤ a) (hb : 0 ≤ b) : cdiv a b = a / b := by
  obtain ⟨m, rfl⟩ := Int.eq_ofNat_of_zero_le ha
  obtain ⟨n, rfl⟩ := Int.eq_ofNat_of_zero_le hb
  rfl

/-- Truncating division of a nonpositive numerator by a nonnegative
denominator is nonpositive. -/
theorem cdiv_nonpos_of_nonpos (n w : Int) (hn : n ≤ 0) (hw : 0 ≤ w) :
    cdiv n w ≤ 0 := by
  have h1 : 0 ≤ -n := by linarith
  have h2 : 0 ≤ Int.tdiv (-n) w := Int.tdiv_nonneg h1 hw
  have h3 : Int.tdiv (-n) w = -(Int.tdiv n w) := Int.neg_tdiv n w
  show Int.tdiv n w ≤ 0
  linarith

/-- A value already in the 32-bit signed range is unchanged by the wrap. -/
theorem wrap32_eq_self (x : Int) (h1 : -2147483648 ≤ x) (h2 : x < 2147483648) :
    wrap32 x = x := by
  have h3 : 0 ≤ x + 2147483648 := by linarith
  have h4 : x + 2147483648 < 4294967296 := by linarith
  unfold wrap32
  rw [Int.emod_eq_of_lt h3 h4]
  ring

/-- The wrap always lands strictly below `2^31`. -/
theorem wrap32_lt (x : Int) : wrap32 x < 2147483648 := by
  unfold wrap32
  have h := Int.emod_lt_of_pos (x + 2147483648)
    (show (0 : Int) < 4294967296 by norm_num)
  linarith

/-- The wrap always lands at or above `-2^31`. -/
theorem neg_le_wrap32 (x : Int) : -2147483648 ≤ wrap32 x := by
  unfold wrap32
  have h := Int.emod_nonneg (x + 2147483648)
    (show (4294967296 : Int) ≠ 0 by norm_num)
  linarith

/-- `wrap32 0 = 0`. -/
theorem wrap32_zero : wrap32 0 = 0 := by decide

/-- Wrapping a multiple of `65536` yields a multiple of `65536` (both
`2^31` and `2^32` are multiples of `65536`). -/
theorem wrap32_shift_dvd (d : Int) : 65536 ∣ wrap32 (d * 65536) := by
  unfold wrap32
  have h1 : (65536 : Int) ∣ 4294967296 := by norm_num
  have h2 : (d * 65536 + 2147483648) % 4294967296 % 65536 =
      (d * 65536 + 2147483648) % 65536 :=
    Int.emod_emod_of_dvd _ h1
  have h3 : (65536 : Int) ∣ (d * 65536 + 2147483648) :=
    dvd_add ⟨d, by ring⟩ ⟨32768, by norm_num⟩
  have h4 : (d * 65536 + 2147483648) % 65536 = 0 :=
    Int.emod_eq_zero_of_dvd h3
  have h5 : (65536 : Int) ∣ (d * 65536 + 2147483648) % 4294967296 :=
    Int.dvd_of_emod_eq_zero (by rw [h2, h4])
  exact dvd_sub h5 ⟨32768, by norm_num⟩

/-- A wrapped shifted value is at most `2^31 - 2^16` (the largest
multiple of `65536` in the signed range). -/
theorem wrap32_shift_le (d : Int) : wrap32 (d * 65536) ≤ 2147418112 := by
  obtain ⟨k, hk⟩ := wrap32_shift_dvd d
  have hlt := wrap32_lt (d * 65536)
  rw [hk] at hlt ⊢
  omega

/-- Unfolded x-coordinate of the mapping. -/
theorem touchpadToScreen_x (r : RECT) (p : POINT) :
    (AT_TouchpadToScreen r p).x =
      cdiv (wrap32 (wrap32 (max r.left (min r.right p.x) - r.left) * 65536))
        (wrap32 (r.right + 1 - r.left)) := rfl

/-- Unfolded y-coordinate of the mapping. -/
theorem touchpadToScreen_y (r : RECT) (p : POINT) :
    (AT_TouchpadToScreen r p).y =
      cdiv (wrap32 (wrap32 (max r.top (min r.bottom p.y) - r.top) * 65536))
        (wrap32 (r.bottom + 1 - r.top)) := rfl

/-- When the inclusive width fits in a `LONG`, the delta and width wraps
are the identity and only the shift can wrap. -/
theorem touchpadToScreen_x_formula (r : RECT) (p : POINT)
    (hlr : r.left ≤ r.right) (hwfit : r.right + 1 - r.left ≤ 2147483647) :
    (AT_TouchpadToScreen r p).x =
      cdiv (wrap32 ((max r.left (min r.right p.x) - r.left) * 65536))
        (r.right + 1 - r.left) := by
  have h1 : r.left ≤ max r.left (min r.right p.x) := le_max_left _ _
  have h2 : max r.left (min r.right p.x) ≤ r.right := max_le hlr (min_le_left _ _)
  rw [touchpadToScreen_x]
  rw [wrap32_eq_self (max r.left (min r.right p.x) - r.left)
    (by linarith) (by linarith)]
  rw [wrap32_eq_self (r.right + 1 - r.left) (by linarith) (by linarith)]

/-- The y-axis analogue of `touchpadToScreen_x_formula`. -/
theorem touchpadToScreen_y_formula (r : RECT) (p : POINT)
    (htb : r.top ≤ r.bottom) (hhfit : r.bottom + 1 - r.top ≤ 2147483647) :
    (AT_TouchpadToScreen r p).y =
      cdiv (wrap32 ((max r.top (min r.bottom p.y) - r.top) * 65536))
        (r.bottom + 1 - r.top) := by
  have h1 : r.top ≤ max r.top (min r.bottom p.y) := le_max_left _ _
  have h2 : max r.top (min r.bottom p.y) ≤ r.bottom := max_le htb (min_le_left _ _)
  rw [touchpadToScreen_y]
  rw [wrap32_eq_self (max r.top (min r.bottom p.y) - r.top)
    (by linarith) (by linarith)]
  rw [wrap32_eq_self (r.bottom + 1 - r.top) (by linarith) (by linarith)]

/-- Core bound: for any clamped delta `0 ≤ d ≤ w - 1`, the mapped value
`wrap32(d << 16) / w` never exceeds `65534` — below the overflow
threshold it is `⌊d·65536/w⌋ ≤ 65534`, and beyond it the wrapped shift is
either nonpositive or a positive multiple of `65536` bounded by
`2^31 - 2^16`, whose quotient by `w ≥ 32769` stays below `65534`. -/
theorem shifted_quotient_le (d w : Int) (hd : 0 ≤ d) (hw : 0 < w)
    (hdw : d ≤ w - 1) : cdiv (wrap32 (d * 65536)) w ≤ 65534 := by
  rcases le_or_lt d 32767 with hsmall | hbig
  · have h0 : 0 ≤ d * 65536 := mul_nonneg hd (by norm_num)
    have h1 : d * 65536 ≤ 32767 * 65536 :=
      mul_le_mul_of_nonneg_right hsmall (by norm_num)
    rw [wrap32_eq_self (d * 65536) (by linarith) (by linarith)]
    rw [cdiv_eq_ediv _ _ h0 (le_of_lt hw)]
    have hmul : d * 65536 ≤ (w - 1) * 65536 :=
      mul_le_mul_of_nonneg_right hdw (by norm_num)
    have hlt : d * 65536 < 65535 * w := by
      rcases le_or_lt w 65535 with hsw | hlw
      · nlinarith
      · nlinarith
    have h2 := (Int.ediv_lt_iff_lt_mul hw).mpr (by linarith : d * 65536 < 65535 * w)
    linarith
  · have hw2 : (32769 : Int) ≤ w := by linarith
    have hub := wrap32_shift_le d
    rcases le_or_lt (wrap32 (d * 65536)) 0 with hnp | hpos
    · have h2 := cdiv_nonpos_of_nonpos (wrap32 (d * 65536)) w hnp (le_of_lt hw)
      linarith
    · rw [cdiv_eq_ediv _ _ (le_of_lt hpos) (le_of_lt hw)]
      have hmul : 65535 * 32769 ≤ 65535 * w :=
        mul_le_mul_of_nonneg_left hw2 (by norm_num)
      have h2 := (Int.ediv_lt_iff_lt_mul hw).mpr
        (by linarith : wrap32 (d * 65536) < 65535 * w)
      linarith

/-- C5 (counterexample).  On the rectangle `{0,0,1000,500}` (well below
the shift-overflow threshold, so the model is exact), the point
`(2000, 250)` has `P.x > R.right`, yet the mapped `screen.x` is `65470`,
not `65535`; the claim as stated is therefore false. -/
theorem clamping_counterexample :
    (0 : Int) ≤ 1000 ∧ (1000 : Int) < 2000 ∧
    (AT_TouchpadToScreen ⟨0, 0, 1000, 500⟩ ⟨2000, 250⟩).x ≠ 65535 := by
  decide

/-- C5 (amended).  For every rectangle `R` with `R.left ≤ R.right` and
`R.top ≤ R.bottom` whose inclusive extents fit in a `LONG`, and every
point `P`: if `P.x < R.left` the mapped `screen.x` is `0`; if
`P.x > R.right` the mapped `screen.x` equals the image of `R.right`
itself, `wrap32((width - 1) << 16) / width`, and that image is *never*
`65535`: it is at most `65534` (the value `65535` claimed by the spec is
unreachable — without shift overflow the quotient is
`65536 - ceil(65536/width) ≤ 65534`, and in the overflow regime the
wrapped shift keeps it strictly below `65534`); analogously for y. -/
theorem clamping_amended (r : RECT) (p : POINT)
    (hlr : r.left ≤ r.right) (htb : r.top ≤ r.bottom)
    (hwfit : r.right + 1 - r.left ≤ 2147483647)
    (hhfit : r.bottom + 1 - r.top ≤ 2147483647) :
    (p.x < r.left → (AT_TouchpadToScreen r p).x = 0) ∧
    (r.right < p.x →
      (AT_TouchpadToScreen r p).x =
        cdiv (wrap32 ((r.right - r.left) * 65536)) (r.right + 1 - r.left) ∧
      (AT_TouchpadToScreen r p).x ≤ 65534) ∧
    (p.y < r.top → (AT_TouchpadToScreen r p).y = 0) ∧
    (r.bottom < p.y →
      (AT_TouchpadToScreen r p).y =
        cdiv (wrap32 ((r.bottom - r.top) * 65536)) (r.bottom + 1 - r.top) ∧
      (AT_TouchpadToScreen r p).y ≤ 65534) := by
  refine ⟨?_, ?_, ?_, ?_⟩
  · intro hx
    rw [touchpadToScreen_x]
    rw [min_eq_right (le_of_lt (lt_of_lt_of_le hx hlr)), max_eq_left (le_of_lt hx),
      sub_self, wrap32_zero, zero_mul, wrap32_zero]
    exact Int.zero_tdiv _
  · intro hx
    have hval : (AT_TouchpadToScreen r p).x =
        cdiv (wrap32 ((r.right - r.left) * 65536)) (r.right + 1 - r.left) := by
      rw [touchpadToScreen_x_formula r p hlr hwfit,
        min_eq_left (le_of_lt hx), max_eq_right hlr]
    refine ⟨hval, ?_⟩
    rw [hval]
    exact shifted_quotient_le (r.right - r.left) (r.right + 1 - r.left)
      (by linarith) (by linarith) (by linarith)
  · intro hy
    rw [touchpadToScreen_y]
    rw [min_eq_right (le_of_lt (lt_of_lt_of_le hy htb)), max_eq_left (le_of_lt hy),
      sub_self, wrap32_zero, zero_mul, wrap32_zero]
    exact Int.zero_tdiv _
  · intro hy
    have hval : (AT_TouchpadToScreen r p).y =
        cdiv (wrap32 ((r.bottom - r.top) * 65536)) (r.bottom + 1 - r.top) := by
      rw [touchpadToScreen_y_formula r p htb hhfit,
        min_eq_left (le_of_lt hy), max_eq_right htb]
    refine ⟨hval, ?_⟩
    rw [hval]
    exact shifted_quotient_le (r.bottom - r.top) (r.bottom + 1 - r.top)
      (by linarith) (by linarith) (by linarith)

/-- C5 (witness): the amended theorem at the rectangle `{0,0,32767,0}`
(width exactly `32768`, the maximising extent) and point `(70000, -3)`:
the clamped-above x coordinate is at most `65534` and the clamped-below
y coordinate is `0`. -/
theorem clamping_amended_witness :
    (AT_TouchpadToScreen ⟨0, 0, 32767, 0⟩ ⟨70000, -3⟩).x ≤ 65534 ∧
    (AT_TouchpadToScreen ⟨0, 0, 32767, 0⟩ ⟨70000, -3⟩).y = 0 :=
  have h := clamping_amended ⟨0, 0, 32767, 0⟩ ⟨70000, -3⟩
    (by decide) (by decide) (by decide) (by decide)
  ⟨(h.2.1 (by decide)).2, h.2.2.1 (by decide)⟩

/-- `at_contact_info` (atdll.cpp lines 110-114): link collection id and
touch area parsed from the HID report descriptor. -/
structure at_contact_info where
  link : Nat
  touchArea : RECT
deriving DecidableEq, Repr

/-- `at_contact` (atdll.cpp lines 117-122): the data for one touch event. -/
structure at_contact where
  info : at_contact_info
  id : Nat
  point : POINT
deriving DecidableEq, Repr

/-- Zero `at_contact`, standing in for the indeterminate value read by the
out-of-bounds access `contacts[0]` on an empty vector (which the callers
never perform: `AT_HandleRawInput` checks `contacts.empty()` first). -/
def zeroContact : at_contact := ⟨⟨0, ⟨0, 0, 0, 0⟩⟩, 0, ⟨0, 0⟩⟩

/--
`AT_GetPrimaryContact` (atdll.cpp lines 624-634), with the thread-local
`t_primaryContactID` made explicit: scans the contacts for one whose id
equals the stored primary id and returns it unchanged; otherwise returns
the first contact and overwrites the stored id with its id.  The result
pairs the chosen contact with the new value of `t_primaryContactID`.
-/
def AT_GetPrimaryContact (primaryContactID : Nat) (contacts : List at_contact) :
    at_contact × Nat :=
  match contacts.find? (fun c => c.id == primaryContactID) with
  | some c => (c, primaryContactID)
  | none => (contacts.headD zeroContact, (contacts.headD zeroContact).id)

/-- C3: primary-contact selection is sticky.  Starting from the fresh
(zero-initialised) thread-local primary id, the report sequence
`[{id:7},{id:9}]`, `[{id:9},{id:7}]`, `[{id:9}]`, `[{id:9},{id:11}]`
yields primary ids `7`, `7`, `9`, `9`; and in general, on a non-empty
contact list, if a contact with the stored id is present it is returned
with the stored id unchanged, else the first contact in report order is
returned and the stored id is overwritten with its id. -/
theorem primary_contact_sticky :
    ((AT_GetPrimaryContact 0 [⟨⟨0, ⟨0, 0, 0, 0⟩⟩, 7, ⟨0, 0⟩⟩, ⟨⟨0, ⟨0, 0, 0, 0⟩⟩, 9, ⟨0, 0⟩⟩]).2 = 7 ∧
     (AT_GetPrimaryContact 7 [⟨⟨0, ⟨0, 0, 0, 0⟩⟩, 9, ⟨0, 0⟩⟩, ⟨⟨0, ⟨0, 0, 0, 0⟩⟩, 7, ⟨0, 0⟩⟩]).2 = 7 ∧
     (AT_GetPrimaryContact 7 [⟨⟨0, ⟨0, 0, 0, 0⟩⟩, 9, ⟨0, 0⟩⟩]).2 = 9 ∧
     (AT_GetPrimaryContact 9 [⟨⟨0, ⟨0, 0, 0, 0⟩⟩, 9, ⟨0, 0⟩⟩, ⟨⟨0, ⟨0, 0, 0, 0⟩⟩, 11, ⟨0, 0⟩⟩]).2 = 9) ∧
    (∀ (pid : Nat) (contacts : List at_contact), contacts ≠ [] →
      ((∃ c ∈ contacts, c.id = pid) →
        (AT_GetPrimaryContact pid contacts).1 ∈ contacts ∧
        (AT_GetPrimaryContact pid contacts).1.id = pid ∧
        (AT_GetPrimaryContact pid contacts).2 = pid) ∧
      ((∀ c ∈ contacts, c.id ≠ pid) →
        (AT_GetPrimaryContact pid contacts).1 = contacts.headD zeroContact ∧
        (AT_GetPrimaryContact pid contacts).2 = (contacts.headD zeroContact).id)) := by
  refine ⟨by decide, ?_⟩
  intro pid contacts hne
  constructor
  · intro hex
    have hsome : (contacts.find? (fun c => c.id == pid)).isSome := by
      rw [List.find?_isSome]
      obtain ⟨c, hc, hid⟩ := hex
      exact ⟨c, hc, by simpa using hid⟩
    obtain ⟨c, hc⟩ := Option.isSome_iff_exists.mp hsome
    have hmem : c ∈ contacts := List.mem_of_find?_eq_some hc
    have hid : c.id = pid := by simpa using List.find?_some hc
    rw [AT_GetPrimaryContact, hc]
    exact ⟨hmem, hid, rfl⟩
  · intro hall
    have hnone : contacts.find? (fun c => c.id == pid) = none := by
      rw [List.find?_eq_none]
      intro c hc
      simpa using hall c hc
    rw [AT_GetPrimaryContact, hnone]
    exact ⟨rfl, rfl⟩

/-- C3 (witness): the general part of the stickiness theorem instantiated
at a concrete non-empty report. -/
theorem primary_contact_sticky_witness :
    (AT_GetPrimaryContact 3 [⟨⟨0, ⟨0, 0, 0, 0⟩⟩, 5, ⟨1, 2⟩⟩]).2 = 5 :=
  ((primary_contact_sticky.2 3 [⟨⟨0, ⟨0, 0, 0, 0⟩⟩, 5, ⟨1, 2⟩⟩]
      (by decide)).2 (by decide)).2

/-! Windows and HID constants used by the shim, with their numeric values. -/

def WM_INPUT : Nat := 0x00FF
def WM_MOUSEMOVE : Nat := 0x0200
def WM_HOTKEY : Nat := 0x0312
def RIM_TYPEMOUSE : Nat := 0
def RIM_TYPEKEYBOARD : Nat := 1
def RIM_TYPEHID : Nat := 2
def RID_INPUT : Nat := 0x10000003
def RID_HEADER : Nat := 0x10000005
def MOUSE_MOVE_ABSOLUTE : Nat := 1
def RIDEV_INPUTSINK : Nat := 0x00000100
def HID_USAGE_PAGE_GENERIC : Nat := 0x01
def HID_USAGE_PAGE_DIGITIZER : Nat := 0x0D
def HID_USAGE_GENERIC_MOUSE : Nat := 0x02
def HID_USAGE_DIGITIZER_TOUCH_PAD : Nat := 0x05
def HOTKEY_ENABLE_ID : Nat := 0xCAFE
def HOTKEY_CALIBRATION_ID : Nat := 0xCAFF
def HOTKEY_LOAD_ID : Nat := 0xCAFD
def HOTKEY_SAVE_ID : Nat := 0xCAFC
def LONG_MAX : Int := 2147483647
def LONG_MIN : Int := -2147483648

/-- `sizeof(RAWINPUTHEADER)` on x64: 4 + 4 + 8 + 8 bytes. -/
def sizeofRAWINPUTHEADER : Nat := 24

/-- `sizeof(RAWINPUT)` on x64 (header plus the largest union member). -/
def sizeofRAWINPUT : Nat := 48

/-- `sizeof(RAWINPUTDEVICE)` on x64: 2 + 2 + 4 + 8 bytes. -/
def sizeofRAWINPUTDEVICE : Nat := 16

/-- `RAWINPUTHEADER`, field-for-field. -/
structure RAWINPUTHEADER where
  dwType : Nat
  dwSize : Nat
  hDevice : Nat
  wParam : Nat
deriving DecidableEq, Repr

/-- The HID report payload of a `WM_INPUT` event, abstracted: the
`HidP_GetUsageValue` / `HidP_GetUsages` / `HidP_GetScaledUsageValue`
calls that `AT_GetContacts` makes against the report buffer (with the
device's preparsed descriptor) are modelled as total functions keyed by
the link collection they are asked about. -/
structure HidReport where
  contactCount : Nat → Nat
  tip : Nat → Bool
  contactId : Nat → Nat
  x : Nat → Int
  y : Nat → Int

/-- A raw input event of HID type as read back through `GetRawInputData`:
the header, the `data.hid.dwSizeHid` / `dwCount` fields and the report. -/
structure RawHidInput where
  header : RAWINPUTHEADER
  dwSizeHid : Nat
  dwCount : Nat
  report : HidReport

/-- `at_device_info` (atdll.cpp lines 127-133): cached per-device
metadata.  The opaque `preparsedData` blob is not represented; it is
consumed only by the HID oracle functions folded into `HidReport`. -/
structure at_device_info where
  linkContactCount : Nat
  contactInfo : List at_contact_info
  touchAreaOverride : Option RECT
deriving DecidableEq, Repr

/--
`AT_GetContacts` (atdll.cpp lines 541-618): reads all touch contact
points from a raw input event.  Returns `[]` when the raw input holds no
HID report; reads the device-wide contact count, clamps it to the number
of parsed contact slots, then walks the first `numContacts` slots in
order, skipping slots whose tip switch is not pressed and emitting
`(info, id, (x, y))` for the rest.
-/
def AT_GetContacts (dev : at_device_info) (input : RawHidInput) : List at_contact :=
  if input.dwCount = 0 then []
  else
    let numContacts0 := input.report.contactCount dev.linkContactCount
    let numContacts :=
      if numContacts0 > dev.contactInfo.length then dev.contactInfo.length
      else numContacts0
    (List.range numContacts).filterMap (fun i =>
      let info := dev.contactInfo.getD i zeroContact.info
      if input.report.tip info.link then
        some ⟨info, input.report.contactId info.link,
          ⟨input.report.x info.link, input.report.y info.link⟩⟩
      else none)

/-- A copy of the raw input whose device-reported contact count has been
pre-clamped to the number of parsed contact slots. -/
def withClampedCount (dev : at_device_info) (input : RawHidInput) : RawHidInput :=
  ⟨input.header, input.dwSizeHid, input.dwCount,
    ⟨fun link => min (input.report.contactCount link) dev.contactInfo.length,
      input.report.tip, input.report.contactId, input.report.x, input.report.y⟩⟩

/-- C7: the contact decoder clamps the device-reported contact count to
the number of parsed contact slots: it returns at most
`contactInfo.length` contacts, every returned contact comes from a parsed
slot, and a report whose count exceeds the slot count behaves exactly as
if the count had been the slot count (the excess is dropped, not an
error). -/
theorem contact_count_clamped (dev : at_device_info) (input : RawHidInput) :
    (AT_GetContacts dev input).length ≤ dev.contactInfo.length ∧
    (∀ c ∈ AT_GetContacts dev input, c.info ∈ dev.contactInfo) ∧
    AT_GetContacts dev input = AT_GetContacts dev (withClampedCount dev input) := by
  refine ⟨?_, ?_, ?_⟩
  · rw [AT_GetContacts]
    split
    · simp
    · have h1 := List.length_filterMap_le
        (fun i =>
          let info := dev.contactInfo.getD i zeroContact.info
          if input.report.tip info.link then
            some (⟨info, input.report.contactId info.link,
              ⟨input.report.x info.link, input.report.y info.link⟩⟩ : at_contact)
          else none)
        (List.range (if input.report.contactCount dev.linkContactCount >
            dev.contactInfo.length then dev.contactInfo.length
          else input.report.contactCount dev.linkContactCount))
      rw [List.length_range] at h1
      refine le_trans h1 ?_
      split <;> omega
  · intro c hc
    rw [AT_GetContacts] at hc
    split at hc
    · simp at hc
    · rw [List.mem_filterMap] at hc
      obtain ⟨i, hi, hfi⟩ := hc
      rw [List.mem_range] at hi
      have hlt : i < dev.contactInfo.length := by
        revert hi
        split <;> omega
      have hgd : dev.contactInfo.getD i zeroContact.info =
          dev.contactInfo.get ⟨i, hlt⟩ := by
        simp [List.getD, List.getElem?_eq_getElem hlt]
      simp only [hgd] at hfi
      split at hfi
      · cases hfi
        exact List.get_mem _ _ _
      · cases hfi
  · rcases input with ⟨hdr, sz, cnt, cc, tip, cid, fx, fy⟩
    rw [AT_GetContacts, AT_GetContacts, withClampedCount]
    simp only
    have hcount : (if cc dev.linkContactCount > dev.contactInfo.length
        then dev.contactInfo.length else cc dev.linkContactCount) =
        (if min (cc dev.linkContactCount) dev.contactInfo.length >
          dev.contactInfo.length then dev.contactInfo.length
        else min (cc dev.linkContactCount) dev.contactInfo.length) := by
      split_ifs <;> omega
    rw [hcount]

/-- Device with two parsed contact slots, for the C7 witness. -/
def twoSlotDevice : at_device_info :=
  ⟨1, [⟨10, ⟨0, 0, 100, 50⟩⟩, ⟨20, ⟨0, 0, 100, 50⟩⟩], none⟩

/-- A report claiming five contacts (all tips pressed), for the C7
witness. -/
def fiveCountInput : RawHidInput :=
  ⟨⟨RIM_TYPEHID, sizeofRAWINPUT, 42, 0⟩, 8, 1,
    ⟨fun _ => 5, fun _ => true, fun link => link, fun _ => 3, fun _ => 4⟩⟩

/-- C7 (witness): a report with count 5 on a device with 2 parsed slots
yields at most 2 contacts. -/
theorem contact_count_clamped_witness :
    (AT_GetContacts twoSlotDevice fiveCountInput).length ≤ 2 :=
  (contact_count_clamped twoSlotDevice fiveCountInput).1

/-- `RAWINPUT` restricted to the mouse union member, which is all the shim
ever synthesises (atdll.cpp lines 794-804). -/
structure RAWINPUT where
  header : RAWINPUTHEADER
  usFlags : Nat
  ulExtraInformation : Nat
  usButtonFlags : Nat
  usButtonData : Nat
  lLastX : Int
  lLastY : Int
deriving DecidableEq, Repr

/-- The zero-initialised thread-local `t_injectedInput`. -/
def zeroRAWINPUT : RAWINPUT := ⟨⟨0, 0, 0, 0⟩, 0, 0, 0, 0, 0, 0⟩

/-- The C++ exception kinds thrown inside the shim: `win32_error`,
`hid_error` (atdll.cpp lines 61-102), `std::runtime_error`,
`std::bad_alloc` (from `make_malloc`), `std::out_of_range` (from
`std::unordered_map::at` / `std::vector::at`) and
`std::bad_optional_access` (from `std::optional::value`). -/
inductive CppExc where
  | win32Error (code : Nat)
  | hidError (code : Int)
  | runtimeError (msg : String)
  | badAlloc
  | outOfRange
  | badOptionalAccess
deriving DecidableEq, Repr

/-- Which exceptions the `catch` clauses around `AT_HandleRawInput`
(atdll.cpp lines 912-920) actually catch: `win32_error`, `hid_error` and
`std::runtime_error` (with its subclasses).  `std::bad_alloc` derives
from `std::exception`, `std::out_of_range` from `std::logic_error` and
`std::bad_optional_access` from `std::exception`, so none of those three
is caught. -/
def caughtByWndProcHandler : CppExc → Bool
  | .win32Error _ => true
  | .hidError _ => true
  | .runtimeError _ => true
  | _ => false

/-- The shim's global and thread-local mutable state (atdll.cpp lines
150-174), for a single thread: mode flags, last device, device cache,
original-window-procedure map, calibration accumulator, injected-input
scratch record and sticky primary contact id. -/
structure ShimState where
  g_enabled : Bool
  g_inCalibrationMode : Bool
  g_lastDevice : Nat
  g_devices : List (Nat × at_device_info)
  g_originalWndProcs : List (Nat × Nat)
  t_calibrationArea : List (Nat × RECT)
  t_injectedInput : RAWINPUT
  t_primaryContactID : Nat
deriving DecidableEq, Repr

/-- Oracle for the OS and file-system calls the shim makes: raw-input
retrieval by handle (`none` models a failing `GetRawInputData`, which the
shim turns into a `win32_error`), HID descriptor parsing for an uncached
device (`AT_GetHidPreparsedData` + the cap enumeration of
`AT_GetDeviceInfo`, which can throw), the readable content of the
calibration file (`none` models `fopen` failure) and whether the
calibration file can be opened for writing. -/
structure OsEnv where
  rawInput : Int → Option RawHidInput
  parseDevice : Nat → Except CppExc at_device_info
  calibrationFileRead : Option (List (String × Int))
  calibrationFileWritable : Bool

/-- `AT_GetDeviceInfo` (atdll.cpp lines 460-538) at the cache level:
return the cached entry if present, otherwise parse (which may throw,
leaving the cache untouched) and insert the fully-parsed entry. -/
def AT_GetDeviceInfo (os : OsEnv) (s : ShimState) (hDevice : Nat) :
    ShimState × Except CppExc at_device_info :=
  match s.g_devices.lookup hDevice with
  | some dev => (s, .ok dev)
  | none =>
    match os.parseDevice hDevice with
    | .error e => (s, .error e)
    | .ok dev => ({ s with g_devices := (hDevice, dev) :: s.g_devices }, .ok dev)

/-- `AT_ExtendCalibrationArea` (atdll.cpp lines 637-655): initialise the
per-device accumulator with the extremal rectangle on first use, then
extend it with every contact point. -/
def AT_ExtendCalibrationArea (s : ShimState) (hDevice : Nat)
    (contacts : List at_contact) : ShimState :=
  let area0 := (s.t_calibrationArea.lookup hDevice).getD
    ⟨LONG_MAX, LONG_MAX, LONG_MIN, LONG_MIN⟩
  let area := contacts.foldl
    (fun a c => ⟨min a.left c.point.x, min a.top c.point.y,
      max a.right c.point.x, max a.bottom c.point.y⟩) area0
  { s with t_calibrationArea := (hDevice, area) :: s.t_calibrationArea }

/-- `AT_GetTouchArea` (atdll.cpp lines 660-668). -/
def AT_GetTouchArea (dev : at_device_info) (contact : at_contact) : RECT :=
  match dev.touchAreaOverride with
  | some r => r
  | none => contact.info.touchArea

/-- One parsed `KEY value` line of the calibration file applied to the
accumulating rectangle; unknown keys are ignored (atdll.cpp lines
704-714). -/
def applyCalibrationEntry (a : RECT) (kv : String × Int) : RECT :=
  if kv.1 = "LEFT" then ⟨kv.2, a.top, a.right, a.bottom⟩
  else if kv.1 = "TOP" then ⟨a.left, kv.2, a.right, a.bottom⟩
  else if kv.1 = "RIGHT" then ⟨a.left, a.top, kv.2, a.bottom⟩
  else if kv.1 = "BOTTOM" then ⟨a.left, a.top, a.right, kv.2⟩
  else a

/-- `AT_LoadCalibration` (atdll.cpp lines 673-721).  Returns silently if
the file cannot be opened; otherwise initialises the calibration
accumulator for the device if absent, folds the parsed entries into it,
and finally assigns it to `g_devices.at(hDevice).touchAreaOverride` —
`std::unordered_map::at` throws `std::out_of_range` when the device is
not cached, after the accumulator has already been updated. -/
def AT_LoadCalibration (os : OsEnv) (s : ShimState) (hDevice : Nat) :
    ShimState × Except CppExc Unit :=
  match os.calibrationFileRead with
  | none => (s, .ok ())
  | some entries =>
    let area0 := (s.t_calibrationArea.lookup hDevice).getD
      ⟨LONG_MAX, LONG_MAX, LONG_MIN, LONG_MIN⟩
    let area := entries.foldl applyCalibrationEntry area0
    let s1 := { s with t_calibrationArea := (hDevice, area) :: s.t_calibrationArea }
    match s1.g_devices.lookup hDevice with
    | none => (s1, .error .outOfRange)
    | some dev =>
      ({ s1 with g_devices :=
          (hDevice, { dev with touchAreaOverride := some area }) :: s1.g_devices },
        .ok ())

/-- `AT_SaveCalibration` (atdll.cpp lines 724-745).  Returns silently if
the file cannot be opened for writing; otherwise
`g_devices.at(hDevice)` throws `std::out_of_range` when the device is
not cached and `touchAreaOverride.value()` throws
`std::bad_optional_access` when no override is set; on success the four
`KEY value` lines are written. -/
def AT_SaveCalibration (os : OsEnv) (s : ShimState) (hDevice : Nat) :
    Except CppExc (Option (List (String × Int))) :=
  if os.calibrationFileWritable then
    match s.g_devices.lookup hDevice with
    | none => .error .outOfRange
    | some dev =>
      match dev.touchAreaOverride with
      | none => .error .badOptionalAccess
      | some r => .ok (some [("LEFT", r.left), ("TOP", r.top),
          ("RIGHT", r.right), ("BOTTOM", r.bottom)])
  else .ok none

/-- The commit loop of `AT_ToggleCalibrationMode` (atdll.cpp lines
867-871): `g_devices.at(entry.first)` throws `std::out_of_range` when a
calibration-area device is not cached, with earlier commits persisting. -/
def commitCalibrationAreas :
    List (Nat × RECT) → ShimState → ShimState × Except CppExc Unit
  | [], s => (s, .ok ())
  | (h, area) :: rest, s =>
    match s.g_devices.lookup h with
    | none => (s, .error .outOfRange)
    | some dev =>
      commitCalibrationAreas rest
        { s with g_devices :=
            (h, { dev with touchAreaOverride := some area }) :: s.g_devices }

/-- `AT_ToggleCalibrationMode` (atdll.cpp lines 864-874). -/
def AT_ToggleCalibrationMode (s : ShimState) : ShimState × Except CppExc Unit :=
  if s.g_inCalibrationMode then
    match commitCalibrationAreas s.t_calibrationArea s with
    | (s1, .error e) => (s1, .error e)
    | (s1, .ok _) =>
      ({ s1 with t_calibrationArea := [], g_inCalibrationMode := false }, .ok ())
  else ({ s with g_inCalibrationMode := true }, .ok ())

/--
`AT_HandleRawInput` (atdll.cpp lines 751-808).  Returns, on success, the
"handled" flag together with the (possibly rewritten) `wParam`/`lParam`;
on a throw, the state reached so far together with the exception.
Non-HID raw input is handled (suppressed) when it is mouse input and
passed through otherwise; HID input records the device, obtains the
cached or parsed device info, decodes contacts, swallows empty reports,
extends the calibration area in calibration mode, and otherwise selects
the primary contact, maps it, writes the synthetic absolute-mouse record
into the thread-local scratch and rewrites `lParam` to the sentinel `0`.
-/
def AT_HandleRawInput (os : OsEnv) (s : ShimState) (wParam : Nat) (lParam : Int) :
    ShimState × Except CppExc (Bool × Nat × Int) :=
  match os.rawInput lParam with
  | none => (s, .error (.win32Error 0))
  | some input =>
    if input.header.dwType ≠ RIM_TYPEHID then
      (s, .ok (input.header.dwType == RIM_TYPEMOUSE, wParam, lParam))
    else
      let s1 := { s with g_lastDevice := input.header.hDevice }
      match AT_GetDeviceInfo os s1 input.header.hDevice with
      | (s2, .error e) => (s2, .error e)
      | (s2, .ok dev) =>
        let contacts := AT_GetContacts dev input
        if contacts.isEmpty then (s2, .ok (true, wParam, lParam))
        else if s2.g_inCalibrationMode then
          (AT_ExtendCalibrationArea s2 input.header.hDevice contacts,
            .ok (true, wParam, lParam))
        else
          let pr := AT_GetPrimaryContact s2.t_primaryContactID contacts
          let s3 := { s2 with t_primaryContactID := pr.2 }
          let touchArea := AT_GetTouchArea dev pr.1
          let screenPoint := AT_TouchpadToScreen touchArea pr.1.point
          let injected : RAWINPUT :=
            ⟨⟨RIM_TYPEMOUSE, sizeofRAWINPUT, input.header.hDevice, wParam⟩,
              MOUSE_MOVE_ABSOLUTE, 0, 0, 0, screenPoint.x, screenPoint.y⟩
          ({ s3 with t_injectedInput := injected }, .ok (false, wParam, 0))

/-- The outcome of the shim's window procedure: either an immediate
return value, or chaining to the host's stored original procedure with
the given parameters. -/
inductive WndResult where
  | ret (value : Int)
  | callOriginal (proc : Nat) (wParam : Nat) (lParam : Int)
deriving DecidableEq, Repr

/-- `CallWindowProcW(g_originalWndProcs.at(hWnd), ...)` (atdll.cpp line
927): `std::unordered_map::at` throws `std::out_of_range` for a window
the shim never hooked. -/
def callOriginalWndProc (s : ShimState) (hWnd : Nat) (wParam : Nat) (lParam : Int) :
    ShimState × Except CppExc WndResult :=
  match s.g_originalWndProcs.lookup hWnd with
  | some proc => (s, .ok (.callOriginal proc wParam lParam))
  | none => (s, .error .outOfRange)

/--
`AT_WndProcHook` (atdll.cpp lines 879-928).  The four hotkey branches run
*outside* any try/catch; only the `WM_INPUT` call of `AT_HandleRawInput`
is wrapped in a handler, and that handler catches exactly
`win32_error`, `hid_error` and `std::runtime_error`.
-/
def AT_WndProcHook (os : OsEnv) (s : ShimState) (hWnd : Nat) (message : Nat)
    (wParam : Nat) (lParam : Int) : ShimState × Except CppExc WndResult :=
  if message = WM_HOTKEY ∧ wParam = HOTKEY_ENABLE_ID then
    ({ s with g_enabled := !s.g_enabled }, .ok (.ret 0))
  else if message = WM_HOTKEY ∧ wParam = HOTKEY_CALIBRATION_ID then
    match AT_ToggleCalibrationMode s with
    | (s1, .error e) => (s1, .error e)
    | (s1, .ok _) => (s1, .ok (.ret 0))
  else if message = WM_HOTKEY ∧ wParam = HOTKEY_LOAD_ID then
    match AT_LoadCalibration os s s.g_lastDevice with
    | (s1, .error e) => (s1, .error e)
    | (s1, .ok _) => (s1, .ok (.ret 0))
  else if message = WM_HOTKEY ∧ wParam = HOTKEY_SAVE_ID then
    match AT_SaveCalibration os s s.g_lastDevice with
    | .error e => (s, .error e)
    | .ok _ => (s, .ok (.ret 0))
  else if s.g_enabled ∨ s.g_inCalibrationMode then
    if message = WM_MOUSEMOVE then (s, .ok (.ret 0))
    else if message = WM_INPUT then
      match AT_HandleRawInput os s wParam lParam with
      | (s1, .ok (true, _, _)) => (s1, .ok (.ret 0))
      | (s1, .ok (false, wParam2, lParam2)) =>
        callOriginalWndProc s1 hWnd wParam2 lParam2
      | (s1, .error e) =>
        if caughtByWndProcHandler e then callOriginalWndProc s1 hWnd wParam lParam
        else (s1, .error e)
    else callOriginalWndProc s hWnd wParam lParam
  else callOriginalWndProc s hWnd wParam lParam

/-- The zero-initialised globals and thread-locals at DLL load. -/
def initialShimState : ShimState := ⟨false, false, 0, [], [], [], zeroRAWINPUT, 0⟩

/-- An environment in which every raw-input retrieval fails, no device
descriptor parses, the calibration file does not exist for reading but
can be created for writing. -/
def bareOsEnv : OsEnv :=
  ⟨fun _ => none, fun _ => .error (.runtimeError "No contact count usage found"),
    none, true⟩

/-- C2 (the code violates the claim).  In the freshly-loaded state (no
device has sent raw input yet, so `g_lastDevice = 0` is not in the device
cache) with the calibration file writable, delivering the save-calibration
hotkey `WM_HOTKEY / HOTKEY_SAVE_ID` makes `AT_SaveCalibration` evaluate
`g_devices.at(g_lastDevice)`, which throws `std::out_of_range`; the
hotkey branch of `AT_WndProcHook` has no try/catch, so the exception
escapes the window procedure into the host's message pump. -/
theorem save_hotkey_exception_escapes :
    AT_WndProcHook bareOsEnv initialShimState 1 WM_HOTKEY HOTKEY_SAVE_ID 0 =
      (initialShimState, .error .outOfRange) := by
  rfl

/-- C8: with `enabled = false` and `in_calibration = false`, every
`WM_INPUT` message delivered to a hooked window is forwarded to the
host's stored original procedure with `wParam` and `lParam` unchanged
(in particular the original raw-input handle), with no state change (so
no synthetic record is written) and without being suppressed. -/
theorem mode_gating_passthrough (os : OsEnv) (s : ShimState) (hWnd : Nat)
    (wParam : Nat) (lParam : Int) (proc : Nat)
    (hen : s.g_enabled = false) (hcal : s.g_inCalibrationMode = false)
    (hproc : s.g_originalWndProcs.lookup hWnd = some proc) :
    AT_WndProcHook os s hWnd WM_INPUT wParam lParam =
      (s, .ok (.callOriginal proc wParam lParam)) := by
  rw [AT_WndProcHook]
  rw [if_neg (by simp [WM_INPUT, WM_HOTKEY])]
  rw [if_neg (by simp [WM_INPUT, WM_HOTKEY])]
  rw [if_neg (by simp [WM_INPUT, WM_HOTKEY])]
  rw [if_neg (by simp [WM_INPUT, WM_HOTKEY])]
  rw [if_neg (by simp [hen, hcal])]
  rw [callOriginalWndProc, hproc]

/-- C8 (witness): the gating theorem at a concrete disabled state with
window `5` hooked to original procedure `77`. -/
theorem mode_gating_passthrough_witness :
    AT_WndProcHook bareOsEnv ⟨false, false, 0, [], [(5, 77)], [], zeroRAWINPUT, 0⟩
        5 WM_INPUT 11 22 =
      (⟨false, false, 0, [], [(5, 77)], [], zeroRAWINPUT, 0⟩,
        .ok (.callOriginal 77 11 22)) :=
  mode_gating_passthrough bareOsEnv _ 5 11 22 77 rfl rfl rfl

/-- `(UINT)-1`, the failure sentinel of `GetRawInputData`. -/
def UINT_ERROR : Nat := 4294967295

/-- What a `GetRawInputData` call copies into the caller's buffer. -/
inductive RawInputWritten where
  | headerOnly (hdr : RAWINPUTHEADER)
  | full (record : RAWINPUT)
deriving DecidableEq, Repr

/-- Observable outcome of a `GetRawInputData` call: the `UINT` return
value, the final value of `*pcbSize`, and the data copied to `pData`
(`none` when nothing was copied). -/
structure GetRawInputDataResult where
  ret : Nat
  pcbSize : Nat
  written : Option RawInputWritten
deriving DecidableEq, Repr

/--
`AT_GetRawInputDataHook` (atdll.cpp lines 813-860).  A non-sentinel
handle is delegated to the original API (modelled as the oracle `orig`)
unchanged.  For the sentinel (`MAGIC_HANDLE = 0`): a wrong
`cbSizeHeader` fails with `(UINT)-1`; `RID_HEADER` serves the header of
the thread-local injected record and `RID_INPUT` the full record, any
other command fails; a null `pData` stores the required size and returns
`0`; an undersized buffer fails with `(UINT)-1`; otherwise the data is
copied, `*pcbSize` is set to the copied size and the size is returned.
-/
def AT_GetRawInputDataHook
    (orig : Int → Nat → Bool → Nat → Nat → GetRawInputDataResult)
    (injected : RAWINPUT) (hRawInput : Int) (uiCommand : Nat)
    (pDataIsNull : Bool) (pcbSize : Nat) (cbSizeHeader : Nat) :
    GetRawInputDataResult :=
  if hRawInput ≠ 0 then orig hRawInput uiCommand pDataIsNull pcbSize cbSizeHeader
  else if cbSizeHeader ≠ sizeofRAWINPUTHEADER then ⟨UINT_ERROR, pcbSize, none⟩
  else
    match (if uiCommand = RID_HEADER then
        some (RawInputWritten.headerOnly injected.header, sizeofRAWINPUTHEADER)
      else if uiCommand = RID_INPUT then
        some (RawInputWritten.full injected, sizeofRAWINPUT)
      else none) with
    | none => ⟨UINT_ERROR, pcbSize, none⟩
    | some (data, size) =>
      if pDataIsNull then ⟨0, size, none⟩
      else if pcbSize < size then ⟨UINT_ERROR, pcbSize, none⟩
      else ⟨size, size, some data⟩

/-- C4: splice round-trip of the interposed raw-input retrieval.  With
the sentinel handle and correct `cbSizeHeader`: `RID_HEADER` with a
sufficient buffer returns exactly the synthetic record's header,
`RID_INPUT` the synthetic full record; a null data pointer stores the
required size and returns `0`; an undersized buffer returns `(UINT)-1`;
and every call with a non-sentinel handle is delegated to the original
API with all arguments unchanged. -/
theorem raw_input_splice_roundtrip
    (orig : Int → Nat → Bool → Nat → Nat → GetRawInputDataResult)
    (injected : RAWINPUT) (pcb : Nat) :
    (sizeofRAWINPUTHEADER ≤ pcb →
      AT_GetRawInputDataHook orig injected 0 RID_HEADER false pcb sizeofRAWINPUTHEADER =
        ⟨sizeofRAWINPUTHEADER, sizeofRAWINPUTHEADER,
          some (.headerOnly injected.header)⟩) ∧
    (sizeofRAWINPUT ≤ pcb →
      AT_GetRawInputDataHook orig injected 0 RID_INPUT false pcb sizeofRAWINPUTHEADER =
        ⟨sizeofRAWINPUT, sizeofRAWINPUT, some (.full injected)⟩) ∧
    (AT_GetRawInputDataHook orig injected 0 RID_HEADER true pcb sizeofRAWINPUTHEADER =
      ⟨0, sizeofRAWINPUTHEADER, none⟩) ∧
    (AT_GetRawInputDataHook orig injected 0 RID_INPUT true pcb sizeofRAWINPUTHEADER =
      ⟨0, sizeofRAWINPUT, none⟩) ∧
    (pcb < sizeofRAWINPUTHEADER →
      AT_GetRawInputDataHook orig injected 0 RID_HEADER false pcb sizeofRAWINPUTHEADER =
        ⟨UINT_ERROR, pcb, none⟩) ∧
    (pcb < sizeofRAWINPUT →
      AT_GetRawInputDataHook orig injected 0 RID_INPUT false pcb sizeofRAWINPUTHEADER =
        ⟨UINT_ERROR, pcb, none⟩) ∧
    (∀ (h : Int) (cmd : Nat) (pd : Bool) (cbh : Nat), h ≠ 0 →
      AT_GetRawInputDataHook orig injected h cmd pd pcb cbh = orig h cmd pd pcb cbh) := by
  refine ⟨?_, ?_, ?_, ?_, ?_, ?_, ?_⟩
  · intro h
    simp [AT_GetRawInputDataHook, RID_HEADER, RID_INPUT,
      sizeofRAWINPUTHEADER, sizeofRAWINPUT] at h ⊢
    omega
  · intro h
    simp [AT_GetRawInputDataHook, RID_HEADER, RID_INPUT,
      sizeofRAWINPUTHEADER, sizeofRAWINPUT] at h ⊢
    omega
  · simp [AT_GetRawInputDataHook, RID_HEADER, RID_INPUT,
      sizeofRAWINPUTHEADER, sizeofRAWINPUT]
  · simp [AT_GetRawInputDataHook, RID_HEADER, RID_INPUT,
      sizeofRAWINPUTHEADER, sizeofRAWINPUT]
  · intro h
    simp [AT_GetRawInputDataHook, RID_HEADER, RID_INPUT, UINT_ERROR,
      sizeofRAWINPUTHEADER, sizeofRAWINPUT] at h ⊢
    omega
  · intro h
    simp [AT_GetRawInputDataHook, RID_HEADER, RID_INPUT, UINT_ERROR,
      sizeofRAWINPUTHEADER, sizeofRAWINPUT] at h ⊢
    omega
  · intro h cmd pd cbh hne
    rw [AT_GetRawInputDataHook, if_pos hne]

/-- C4 (witness): sentinel `RID_HEADER` retrieval with a 100-byte buffer
returns the injected record's header. -/
theorem raw_input_splice_roundtrip_witness :
    AT_GetRawInputDataHook (fun _ _ _ pcb _ => ⟨0, pcb, none⟩) zeroRAWINPUT
        0 RID_HEADER false 100 sizeofRAWINPUTHEADER =
      ⟨sizeofRAWINPUTHEADER, sizeofRAWINPUTHEADER,
        some (.headerOnly zeroRAWINPUT.header)⟩ :=
  (raw_input_splice_roundtrip (fun _ _ _ pcb _ => ⟨0, pcb, none⟩)
    zeroRAWINPUT 100).1 (by decide)

/-- `GWLP_WNDPROC`. -/
def GWLP_WNDPROC : Int := -4

/-- The OS-side window-procedure slots: for each window handle, the
procedure the OS will actually invoke.  Window procedures are modelled by
numeric identifiers (function addresses). -/
def OsWindowProcs : Type := List (Nat × Nat)

/-- The real `GetWindowLongPtrW` restricted to the procedure slot (the
only slot the shim's claims concern); other indices are outside the
model and read as `0`. -/
def origGetWindowLongPtrW (osw : OsWindowProcs) (hWnd : Nat) (nIndex : Int) : Nat :=
  if nIndex = GWLP_WNDPROC then (List.lookup hWnd osw).getD 0 else 0

/-- The real `SetWindowLongPtrW` restricted to the procedure slot:
returns the previous value and installs the new one in the OS slot. -/
def origSetWindowLongPtrW (osw : OsWindowProcs) (hWnd : Nat) (nIndex : Int)
    (dwNewLong : Nat) : Nat × OsWindowProcs :=
  if nIndex = GWLP_WNDPROC then ((List.lookup hWnd osw).getD 0, (hWnd, dwNewLong) :: osw)
  else (0, osw)

/-- `AT_GetWindowLongPtrWHook` (atdll.cpp lines 978-987): reading the
procedure slot of a hooked window returns the stored original procedure;
everything else is delegated to the real accessor. -/
def AT_GetWindowLongPtrWHook (osw : OsWindowProcs) (s : ShimState)
    (hWnd : Nat) (nIndex : Int) : Nat :=
  if nIndex = GWLP_WNDPROC ∧ (List.lookup hWnd s.g_originalWndProcs).isSome then
    (List.lookup hWnd s.g_originalWndProcs).getD 0
  else origGetWindowLongPtrW osw hWnd nIndex

/-- `AT_SetWindowLongPtrWHook` (atdll.cpp lines 991-1003): writing the
procedure slot of a hooked window updates only the stored original
procedure and returns the previously-stored one, leaving the OS slot
(the shim's procedure) untouched; everything else is delegated. -/
def AT_SetWindowLongPtrWHook (osw : OsWindowProcs) (s : ShimState)
    (hWnd : Nat) (nIndex : Int) (dwNewLong : Nat) :
    Nat × ShimState × OsWindowProcs :=
  if nIndex = GWLP_WNDPROC ∧ (List.lookup hWnd s.g_originalWndProcs).isSome then
    ((List.lookup hWnd s.g_originalWndProcs).getD 0,
      { s with g_originalWndProcs := (hWnd, dwNewLong) :: s.g_originalWndProcs }, osw)
  else
    let r := origSetWindowLongPtrW osw hWnd nIndex dwNewLong
    (r.1, s, r.2)

/-- `AT_CreateWindowExWHook` (atdll.cpp lines 1040-1068), after the
original `CreateWindowExW` has produced window `hWnd` whose class
procedure `classProc` the OS installed: the hook swizzles the OS slot to
the shim's procedure (`shimProc`, the address of `AT_WndProcHook`) via
the real setter and records the returned original in
`g_originalWndProcs`. -/
def AT_CreateWindowExWHook (osw : OsWindowProcs) (s : ShimState)
    (shimProc : Nat) (hWnd : Nat) (classProc : Nat) :
    ShimState × OsWindowProcs :=
  let osw1 : OsWindowProcs := (hWnd, classProc) :: osw
  let r := origSetWindowLongPtrW osw1 hWnd GWLP_WNDPROC shimProc
  ({ s with g_originalWndProcs := (hWnd, r.1) :: s.g_originalWndProcs }, r.2)

/-- C9: interposition transparency.  After the shim hooks a freshly
created window: reading the procedure slot through the interposed getter
returns the host-installed original (never the shim's procedure, as long
as the host procedure differs from it); writing a new procedure through
the interposed setter returns the previously-stored original, and a
subsequent read returns the newly written pointer; and throughout, the
procedure actually installed in the OS slot remains the shim's. -/
theorem interposition_transparency (osw : OsWindowProcs) (s : ShimState)
    (shimProc hWnd classProc newProc : Nat) (hne : classProc ≠ shimProc) :
    AT_GetWindowLongPtrWHook (AT_CreateWindowExWHook osw s shimProc hWnd classProc).2
        (AT_CreateWindowExWHook osw s shimProc hWnd classProc).1 hWnd GWLP_WNDPROC =
      classProc ∧
    AT_GetWindowLongPtrWHook (AT_CreateWindowExWHook osw s shimProc hWnd classProc).2
        (AT_CreateWindowExWHook osw s shimProc hWnd classProc).1 hWnd GWLP_WNDPROC ≠
      shimProc ∧
    List.lookup hWnd (AT_CreateWindowExWHook osw s shimProc hWnd classProc).2 =
      some shimProc ∧
    (AT_SetWindowLongPtrWHook (AT_CreateWindowExWHook osw s shimProc hWnd classProc).2
        (AT_CreateWindowExWHook osw s shimProc hWnd classProc).1
        hWnd GWLP_WNDPROC newProc).1 = classProc ∧
    AT_GetWindowLongPtrWHook
        (AT_SetWindowLongPtrWHook (AT_CreateWindowExWHook osw s shimProc hWnd classProc).2
          (AT_CreateWindowExWHook osw s shimProc hWnd classProc).1
          hWnd GWLP_WNDPROC newProc).2.2
        (AT_SetWindowLongPtrWHook (AT_CreateWindowExWHook osw s shimProc hWnd classProc).2
          (AT_CreateWindowExWHook osw s shimProc hWnd classProc).1
          hWnd GWLP_WNDPROC newProc).2.1 hWnd GWLP_WNDPROC = newProc ∧
    List.lookup hWnd
        (AT_SetWindowLongPtrWHook (AT_CreateWindowExWHook osw s shimProc hWnd classProc).2
          (AT_CreateWindowExWHook osw s shimProc hWnd classProc).1
          hWnd GWLP_WNDPROC newProc).2.2 = some shimProc := by
  simp [AT_CreateWindowExWHook, AT_GetWindowLongPtrWHook, AT_SetWindowLongPtrWHook,
    origSetWindowLongPtrW, List.lookup, hne]

/-- C9 (witness): transparency at a concrete window `3` with class
procedure `100`, shim procedure `1`, rewritten to `200`. -/
theorem interposition_transparency_witness :
    AT_GetWindowLongPtrWHook (AT_CreateWindowExWHook [] initialShimState 1 3 100).2
        (AT_CreateWindowExWHook [] initialShimState 1 3 100).1 3 GWLP_WNDPROC = 100 ∧
    List.lookup 3 (AT_CreateWindowExWHook [] initialShimState 1 3 100).2 = some 1 :=
  have h := interposition_transparency [] initialShimState 1 3 100 200 (by decide)
  ⟨h.1, h.2.2.1⟩

/-- `RAWINPUTDEVICE`, field-for-field. -/
structure RAWINPUTDEVICE where
  usUsagePage : Nat
  usUsage : Nat
  dwFlags : Nat
  hwndTarget : Nat
deriving DecidableEq, Repr

/-- One invocation of the original `RegisterRawInputDevices`, with its
argument triple. -/
structure RegisterCall where
  devices : List RAWINPUTDEVICE
  uiNumDevices : Nat
  cbSize : Nat
deriving DecidableEq, Repr

/-- The single-element device array that `AT_RegisterTouchpadInput`
(atdll.cpp lines 416-427) passes to the original API: Digitizer /
TouchPad usage with `RIDEV_INPUTSINK` targeting the given window. -/
def touchpadRegDevice (hWnd : Nat) : RAWINPUTDEVICE :=
  ⟨HID_USAGE_PAGE_DIGITIZER, HID_USAGE_DIGITIZER_TOUCH_PAD, RIDEV_INPUTSINK, hWnd⟩

/--
`AT_RegisterRawInputDevicesHook` (atdll.cpp lines 934-972).  A zero
device count returns `false` immediately.  Otherwise, for every entry
with Generic Desktop / Mouse usage, the four hotkeys are registered on
its target window and `AT_RegisterTouchpadInput` invokes the *original*
API once with a one-element touchpad array (failures caught and
ignored); finally the original API is invoked with the caller's
arguments and its result returned.  The result carries the return value,
the ordered list of original-API invocations, and the windows on which
hotkeys were registered.
-/
def AT_RegisterRawInputDevicesHook
    (orig : List RAWINPUTDEVICE → Nat → Nat → Bool)
    (pRawInputDevices : List RAWINPUTDEVICE) (cbSize : Nat) :
    Bool × List RegisterCall × List Nat :=
  if pRawInputDevices.length = 0 then (false, [], [])
  else
    let hotkeyWindows := pRawInputDevices.filterMap (fun dev =>
      if dev.usUsagePage = HID_USAGE_PAGE_GENERIC ∧
          dev.usUsage = HID_USAGE_GENERIC_MOUSE then
        some dev.hwndTarget
      else none)
    let touchpadCalls := pRawInputDevices.filterMap (fun dev =>
      if dev.usUsagePage = HID_USAGE_PAGE_GENERIC ∧
          dev.usUsage = HID_USAGE_GENERIC_MOUSE then
        some (RegisterCall.mk [touchpadRegDevice dev.hwndTarget] 1
          sizeofRAWINPUTDEVICE)
      else none)
    (orig pRawInputDevices pRawInputDevices.length cbSize,
      touchpadCalls ++
        [⟨pRawInputDevices, pRawInputDevices.length, cbSize⟩],
      hotkeyWindows)

/-- A Generic Desktop / Mouse registration entry targeting window `7`. -/
def mouseRegDevice : RAWINPUTDEVICE :=
  ⟨HID_USAGE_PAGE_GENERIC, HID_USAGE_GENERIC_MOUSE, 0, 7⟩

/-- C10 (counterexample).  For the one-element mouse registration, the
hook invokes the original API twice (once for the piggybacked touchpad
registration inside `AT_RegisterTouchpadInput`, once for the caller's
passthrough), refuting "the original API is invoked exactly once". -/
theorem register_hook_counterexample :
    ((AT_RegisterRawInputDevicesHook (fun _ _ _ => true) [mouseRegDevice]
        sizeofRAWINPUTDEVICE).2.1).length = 2 ∧
    ¬ ((AT_RegisterRawInputDevicesHook (fun _ _ _ => true) [mouseRegDevice]
        sizeofRAWINPUTDEVICE).2.1).length = 1 := by
  decide

/-- C10 (amended).  A zero device count returns `false` immediately, with
no invocation of the original API and no hotkey or touchpad
registration.  For a nonzero count, the original API is invoked with the
caller's argument triple unchanged *exactly once* — as the final
invocation, whose result is returned — but it is additionally invoked
once per Generic Desktop / Mouse entry with a one-element touchpad
registration array. -/
theorem register_hook_amended
    (orig : List RAWINPUTDEVICE → Nat → Nat → Bool)
    (devs : List RAWINPUTDEVICE) (cbSize : Nat) :
    (devs = [] → AT_RegisterRawInputDevicesHook orig devs cbSize = (false, [], [])) ∧
    (devs ≠ [] →
      (AT_RegisterRawInputDevicesHook orig devs cbSize).1 =
        orig devs devs.length cbSize ∧
      ((AT_RegisterRawInputDevicesHook orig devs cbSize).2.1).count
        ⟨devs, devs.length, cbSize⟩ = 1 ∧
      ((AT_RegisterRawInputDevicesHook orig devs cbSize).2.1).getLast? =
        some ⟨devs, devs.length, cbSize⟩) := by
  constructor
  · intro hnil
    subst hnil
    rfl
  · intro hne
    have hlen : devs.length ≠ 0 := by
      simpa [List.length_eq_zero] using hne
    rw [AT_RegisterRawInputDevicesHook, if_neg hlen]
    refine ⟨rfl, ?_, ?_⟩
    · rw [List.count_append]
      have hnotmem : (RegisterCall.mk devs devs.length cbSize) ∉
          devs.filterMap (fun dev =>
            if dev.usUsagePage = HID_USAGE_PAGE_GENERIC ∧
                dev.usUsage = HID_USAGE_GENERIC_MOUSE then
              some (RegisterCall.mk [touchpadRegDevice dev.hwndTarget] 1
                sizeofRAWINPUTDEVICE)
            else none) := by
        intro hmem
        obtain ⟨dev, hdev, heq⟩ := List.mem_filterMap.mp hmem
        split at heq
        · rename_i hcond
          cases heq
          have hdev2 : dev ∈ [touchpadRegDevice dev.hwndTarget] := hdev
          have : dev = touchpadRegDevice dev.hwndTarget := by
            simpa using hdev2
          rw [this] at hcond
          simp [touchpadRegDevice, HID_USAGE_PAGE_DIGITIZER,
            HID_USAGE_PAGE_GENERIC] at hcond
        · cases heq
      rw [List.count_eq_zero.mpr hnotmem]
      simp
    · simp

/-- C10 (witness): for the one-element mouse registration, the caller's
argument triple is passed to the original API exactly once. -/
theorem register_hook_amended_witness :
    ((AT_RegisterRawInputDevicesHook (fun _ _ _ => true) [mouseRegDevice]
        16).2.1).count ⟨[mouseRegDevice], 1, 16⟩ = 1 :=
  ((register_hook_amended (fun _ _ _ => true) [mouseRegDevice] 16).2
    (by decide)).2.1
